import Mathlib

/-!
# Shallow embedding of the WCAG document-accessibility checkers

This file embeds the two analyzers of the repository —
`checkDocx` (src/lib/accessibility/docxChecker.ts, first variant, the one the
claims cite by line number) and `checkPdf` — together with the shared
`Report`/`Violation` data contract (types.ts), and proves properties about
them.

The analyzers consume their documents through collaborator libraries (JSZip,
xml2js, pdfjs-dist).  The embedding models an input at that collaborator
boundary: a `DocxInput` carries, for each ZIP part the checker reads, the
value the collaborator would hand back (`none` for a missing part, a parse
outcome for a parsed part, the attribute values a regex scan over the raw
XML would surface); a `PdfInput` carries the metadata fields, page text items
and optional structure tree that pdfjs exposes.  All definitions are
executable.
-/

/-- `Status` of a finding — types.ts `Status`. -/
inductive Status where
  | pass | fail | warning | manual
deriving DecidableEq, Repr

/-- `Impact` severity tier — types.ts `Impact`. -/
inductive Impact where
  | critical | serious | moderate | minor
deriving DecidableEq, Repr

/-- types.ts `Violation` (a finding record; passes use the same shape). -/
structure Violation where
  id : String
  wcagCriterion : String
  description : String
  help : String
  impact : Impact
  status : Status
  details : Option String := none
deriving DecidableEq, Repr

/-- Report file type: `'pdf' | 'docx'`. -/
inductive FileType where
  | pdf | docx
deriving DecidableEq, Repr

/-- types.ts `Report.metadata`: all fields optional in the interface. -/
structure Metadata where
  title : Option String := none
  language : Option String := none
  pageCount : Option Nat := none
  author : Option String := none
  createdAt : Option String := none
deriving DecidableEq, Repr

/-- types.ts `Report`. -/
structure Report where
  fileName : String
  fileType : FileType
  complianceScore : Nat
  passedChecks : Nat
  totalChecks : Nat
  violations : List Violation
  metadata : Metadata
deriving DecidableEq, Repr

/-- The score formula both checkers compute:
`total === 0 ? 100 : Math.round((passCount / total) * 100)`.
JavaScript `Math.round` rounds half up; for non-negative arguments
`Math.round(100*p/t) = ⌊100p/t + 1/2⌋ = (200p + t) / (2t)` in integer
division. -/
def scoreOf (passCount total : Nat) : Nat :=
  if total = 0 then 100 else (200 * passCount + total) / (2 * total)

/-- The final report assembly performed identically at the end of `checkDocx`
and `checkPdf`: count `fail`/`pass` statuses, take the list length, compute
the score. -/
def mkReport (name : String) (ft : FileType) (vs : List Violation)
    (md : Metadata) : Report :=
  let passCount := (vs.filter (fun v => v.status == Status.pass)).length
  let total := vs.length
  { fileName := name
    fileType := ft
    complianceScore := scoreOf passCount total
    passedChecks := passCount
    totalChecks := total
    violations := vs
    metadata := md }

/-! ## Character-level helpers mirroring the JavaScript regex tests -/

/-- Case folding as JS `toLowerCase`/`i`-flag canonicalisation acts on the
characters these patterns involve: ASCII letters plus the Polish `Ł`/`Ó`
appearing in `Nagłówek`/`Tytuł`. -/
def foldChar (c : Char) : Char :=
  if c = 'Ł' then 'ł' else if c = 'Ó' then 'ó' else c.toLower

/-- Fold a whole string. -/
def caseFold (s : String) : String := String.mk (s.data.map foldChar)

/-- Match a literal character list at the head, returning the rest. -/
def matchLit : List Char → List Char → Option (List Char)
  | [], s => some s
  | _ :: _, [] => none
  | p :: ps, c :: cs => if p = c then matchLit ps cs else none

/-- `\s*[0-9]` : skip whitespace, then require a digit. -/
def wsDigit : List Char → Bool
  | [] => false
  | c :: cs => if c.isWhitespace then wsDigit cs else c.isDigit

/-- `[0-9]` immediately. -/
def headDigit : List Char → Bool
  | [] => false
  | c :: _ => c.isDigit

/-- All remaining characters are digits. -/
def allDigits : List Char → Bool
  | [] => true
  | c :: cs => c.isDigit && allDigits cs

/-- `\s*[0-9]+$` : optional whitespace, then one or more digits to the end. -/
def wsDigitsEnd : List Char → Bool
  | [] => false
  | c :: cs => if c.isWhitespace then wsDigitsEnd cs else c.isDigit && allDigits cs

/-- Match `lit` at this position, then continue with `k` on the rest. -/
def litThen (lit : String) (k : List Char → Bool) (s : List Char) : Bool :=
  match matchLit lit.data s with
  | some rest => k rest
  | none => false

/-- Unanchored search: does `p` match at some position of `s`? -/
def searchFrom (p : List Char → Bool) : List Char → Bool
  | [] => p []
  | c :: cs => p (c :: cs) || searchFrom p (cs)

/-- `/heading\s*[0-9]|nag[lł]ówek\s*[0-9]|tytuł/i` on an already
case-folded string (the source lowercases the style name first). -/
def isHeadingName (s : String) : Bool :=
  searchFrom
    (fun l => litThen "heading" wsDigit l || litThen "nagłówek" wsDigit l ||
      litThen "naglówek" wsDigit l || litThen "tytuł" (fun _ => true) l)
    s.data

/-- `/heading\s*[0-9]|nag[lł]ówek/i` on the case-folded `basedOn` value. -/
def isHeadingBasedOn (s : String) : Bool :=
  searchFrom
    (fun l => litThen "heading" wsDigit l || litThen "nagłówek" (fun _ => true) l ||
      litThen "naglówek" (fun _ => true) l)
    s.data

/-- `/heading[0-9]/i` on the style identifier. -/
def isHeadingId (s : String) : Bool :=
  searchFrom (litThen "heading" headDigit) (caseFold s).data

/-- The fallback heading regex
`/w:val=["'](Heading|Nagłówek|Naglowek|Tytuł)\s*[0-9]+["']|w:val=["']Heading[0-9]+["']/i`
tested against one `w:val` attribute value: anchored between the quotes, the
value must be one of the four words followed by optional whitespace and one
or more digits (the second alternative is subsumed by the first). -/
def isFallbackHeadingVal (v : String) : Bool :=
  let l := (caseFold v).data
  litThen "heading" wsDigitsEnd l || litThen "nagłówek" wsDigitsEnd l ||
    litThen "naglowek" wsDigitsEnd l || litThen "tytuł" wsDigitsEnd l

/-- Substring containment (`String.prototype.includes`). -/
def strContains (hay needle : String) : Bool :=
  searchFrom (fun l => (matchLit needle.data l).isSome) hay.data

/-- The JS test `s.trim().length === 0` (all characters whitespace, or the
empty string), kept executable over the character list. -/
def isBlank (s : String) : Bool := s.data.all Char.isWhitespace

/-! ## DOCX input model (collaborator boundary) -/

/-- Parsed `docProps/core.xml` after the source's defaulting
(`core['dc:title']?.[0] || ''` etc.): three plain strings. -/
structure CoreXml where
  title : String
  author : String
  createdAt : String
deriving DecidableEq, Repr

/-- One `w:style` element as read by the source: the `w:styleId` attribute,
the `w:name` element's `w:val` and the `w:basedOn` element's `w:val`
(either may be absent; the source lowercases them and defaults to `''`). -/
structure Style where
  styleId : Option String
  nameVal : Option String
  basedOn : Option String
deriving DecidableEq, Repr

/-- One `<wp:docPr …>` image-descriptor tag: its `descr` and `title`
attribute values, when the attributes are present. -/
structure ImgTag where
  descr : Option String
  title : Option String
deriving DecidableEq, Repr

/-- What the source reads out of the raw `word/document.xml` text with
regexes: every `w:val="…"`/`w:val='…'` attribute value occurring in it, and
every `<wp:docPr …>` tag. -/
structure DocPart where
  vals : List String
  imgTags : List ImgTag
deriving DecidableEq, Repr

/-- `word/styles.xml`: its raw text (for the `includes('w:lang')` test) and
the outcome of `parseStringPromise` (`none` when parsing throws — that
exception is caught by the source). -/
structure StylesPart where
  raw : String
  parsed : Option (List Style)
deriving DecidableEq, Repr

/-- A DOCX whose ZIP container opened, seen at the collaborator boundary.
`corePart = none`: no `docProps/core.xml` entry; `corePart = some none`: the
entry exists but its XML is malformed, so `parseStringPromise` rejects
(the source does not catch this); `corePart = some (some c)`: parsed. -/
structure DocxInput where
  fileName : String
  corePart : Option (Option CoreXml)
  stylesPart : Option StylesPart
  docPart : Option DocPart
deriving DecidableEq, Repr

/-! ## checkDocx (docxChecker.ts, first variant) -/

/-- Is a style a heading style (the `isHeadingName || isHeadingBasedOn ||
isHeadingId` test, guarded by `styleId &&`)? -/
def isHeadingStyle (st : Style) : Bool :=
  match st.styleId with
  | none => false
  | some sid =>
    isHeadingName (caseFold (st.nameVal.getD "")) ||
      isHeadingBasedOn (caseFold (st.basedOn.getD "")) || isHeadingId sid

/-- The `headingStyleIds` set built from `styles.xml` (a list here: the
source only tests membership, so duplicates and order are irrelevant). -/
def headingStyleIds (styles : List Style) : List String :=
  styles.filterMap (fun st =>
    if isHeadingStyle st then st.styleId else none)

/-- The per-id usage scan over `document.xml`: the source builds the regex
`w:val=["']id["']` with the `i` flag, so an id is used when some `w:val`
attribute value equals it up to case. -/
def headingUsed (ids : List String) (vals : List String) : Bool :=
  ids.any (fun sid => vals.any (fun v => caseFold v == caseFold sid))

/-- `hasDescr` for one image tag: `/descr="[^"]+"/` holds and neither
`/descr=""/` nor `/descr="\s*"/` does — i.e. the `descr` value exists and is
not whitespace-only. -/
def imgHasDescr (t : ImgTag) : Bool :=
  match t.descr with
  | some s => s.data.any (fun c => !c.isWhitespace)
  | none => false

/-- `hasTitle` for one image tag: `/title="[^"]+"/` — a non-empty `title`
attribute value (whitespace counts). -/
def imgHasTitle (t : ImgTag) : Bool :=
  match t.title with
  | some s => s ≠ ""
  | none => false

/-- The fixed `meta-title` fail record (title empty/whitespace). -/
def vTitleFail : Violation :=
  { id := "meta-title", wcagCriterion := "2.4.2"
    description := "Tytuł dokumentu nie został znaleziony"
    help := "Dodaj tytuł we właściwościach dokumentu w Word (Plik > Informacje)."
    impact := Impact.serious, status := Status.fail }

/-- The `meta-title` pass record carrying the found title. -/
def vTitlePass (title : String) : Violation :=
  { id := "meta-title", wcagCriterion := "2.4.2"
    description := "Tytuł dokumentu jest obecny"
    help := "Dobra robota!"
    impact := Impact.moderate, status := Status.pass
    details := some ("Znaleziony tytuł: \"" ++ title ++ "\"") }

/-- The `meta-title` fail record when `docProps/core.xml` is absent. -/
def vTitleUnreadable : Violation :=
  { id := "meta-title", wcagCriterion := "2.4.2"
    description := "Nie udało się odczytać właściwości dokumentu"
    help := "Upewnij się, że plik to poprawny DOCX."
    impact := Impact.serious, status := Status.fail }

/-- The `meta-lang` pass record. -/
def vLangPass : Violation :=
  { id := "meta-lang", wcagCriterion := "3.1.1"
    description := "Atrybut języka wykryty w stylach"
    help := "Upewnij się, że ustawiony jest poprawny język treści."
    impact := Impact.moderate, status := Status.pass }

/-- The `meta-lang` warning record. -/
def vLangWarn : Violation :=
  { id := "meta-lang", wcagCriterion := "3.1.1"
    description := "Nie znaleziono definicji języka"
    help := "Sprawdź ustawienia języka w Word."
    impact := Impact.moderate, status := Status.warning }

/-- The `structure-headings` pass record. -/
def vHeadingsPass : Violation :=
  { id := "structure-headings", wcagCriterion := "1.3.1"
    description := "Wykryto nagłówki"
    help := "Dobrze, że używasz stylów nagłówków."
    impact := Impact.serious, status := Status.pass }

/-- The `structure-headings` fail record. -/
def vHeadingsFail : Violation :=
  { id := "structure-headings", wcagCriterion := "1.3.1"
    description := "Nie wykryto stylów nagłówków"
    help := "Używaj stylów (Nagłówek 1, 2 itp.) w Wordzie, aby nadać strukturę, a nie tylko pogrubienie."
    impact := Impact.serious, status := Status.fail }

/-- The `images-alt` pass record (images present, all with alt). -/
def vImagesAllAlt : Violation :=
  { id := "images-alt", wcagCriterion := "1.1.1"
    description := "Wszystkie obrazy mają tekst alternatywny"
    help := "Upewnij się, że tekst jest sensowny."
    impact := Impact.critical, status := Status.pass }

/-- The `images-alt` fail record with the missing count. -/
def vImagesMissing (n : Nat) : Violation :=
  { id := "images-alt", wcagCriterion := "1.1.1"
    description := "Znaleziono " ++ toString n ++ " obrazów bez tekstu alternatywnego"
    help := "Kliknij prawym przyciskiem obraz w Word > Edytuj tekst alternatywny."
    impact := Impact.critical, status := Status.fail }

/-- The `images-alt` pass record when no images were found. -/
def vImagesNone : Violation :=
  { id := "images-alt", wcagCriterion := "1.1.1"
    description := "Nie znaleziono obrazów"
    help := "Jeśli dodasz obrazy, pamiętaj o tekście alternatywnym."
    impact := Impact.minor, status := Status.pass }

/-- `langFound`: the raw `styles.xml` text contains `'w:lang'` (when the
part exists). -/
def docxLangFound (i : DocxInput) : Bool :=
  match i.stylesPart with
  | some sp => strContains sp.raw "w:lang"
  | none => false

/-- Heading style ids collected from `styles.xml`; empty when the part is
missing or its parse threw (the source catches that exception and leaves
the set empty). -/
def docxHeadingIds (i : DocxInput) : List String :=
  match i.stylesPart with
  | some sp =>
    match sp.parsed with
    | some styles => headingStyleIds styles
    | none => []
  | none => []

/-- `hasHeadings`: when `document.xml` exists, either a collected heading
style id is used as a `w:val` value (case-insensitively), or — the fallback
taken when that scan found nothing — some `w:val` value matches the literal
heading pattern. -/
def docxHasHeadings (i : DocxInput) : Bool :=
  match i.docPart with
  | some dp =>
    headingUsed (docxHeadingIds i) dp.vals || dp.vals.any isFallbackHeadingVal
  | none => false

/-- `imagesMissingAlt`: the tags with neither a usable `descr` nor a
non-empty `title`. -/
def countMissingAlt (tags : List ImgTag) : Nat :=
  (tags.filter (fun t => !imgHasDescr t && !imgHasTitle t)).length

/-- The `<wp:docPr …>` tags of `document.xml` (empty when the part is
missing: `hasImages` then stays `false` and the missing count `0`). -/
def docxImgTags (i : DocxInput) : List ImgTag :=
  match i.docPart with
  | some dp => dp.imgTags
  | none => []

/-- Checks 2–4 of `checkDocx` plus report assembly, shared by the paths in
which the title check did not throw: `v1` is the emitted `meta-title`
record and `core` the (possibly defaulted-empty) core properties used for
the report metadata. -/
def docxRest (i : DocxInput) (v1 : Violation) (core : CoreXml) : Report :=
  let langV := if docxLangFound i then vLangPass else vLangWarn
  let headV := if docxHasHeadings i then vHeadingsPass else vHeadingsFail
  let tags := docxImgTags i
  let missing := countMissingAlt tags
  let imgV :=
    if tags.isEmpty then vImagesNone
    else if missing = 0 then vImagesAllAlt
    else vImagesMissing missing
  mkReport i.fileName FileType.docx [v1, langV, headV, imgV]
    { title := some core.title, author := some core.author
      createdAt := some core.createdAt }

/-- `checkDocx` (first variant of docxChecker.ts).  The `Except.error` case
is the one unguarded rejection inside the function: `docProps/core.xml`
exists but `parseStringPromise` rejects (or yields no `cp:coreProperties`
object), which propagates out of `checkDocx` — there is no try/catch around
the core-properties parse, unlike the styles parse. -/
def checkDocx (i : DocxInput) : Except String Report :=
  match i.corePart with
  | none => Except.ok (docxRest i vTitleUnreadable ⟨"", "", ""⟩)
  | some none => Except.error "checkDocx: parseStringPromise rejected on docProps/core.xml"
  | some (some core) =>
    Except.ok (docxRest i
      (if isBlank core.title then vTitleFail else vTitlePass core.title) core)

/-! ## PDF input model and checkPdf (src/unnamed/part_001) -/

/-- A node of the pdfjs logical structure tree as `checkPdf`'s `traverse`
reads it: its `role`, an optional `alt` string field, an optional low-level
`dict` whose `Alt` entry (a string, when present) is the inner `Option`,
and its children. -/
inductive StructNode where
  | mk (role : String) (alt : Option String) (dictAlt : Option (Option String))
      (children : List StructNode)

/-- Non-empty-after-trim test applied to both `node.alt` and the dictionary
`Alt` entry (`altEntry && typeof altEntry === 'string' && trim().length > 0`). -/
def altOk : Option String → Bool
  | some s => !isBlank s
  | none => false

/-- `hasAlt` for a figure node: the `alt` field qualifies, or — when it does
not — the node exposes a `dict` whose `Alt` entry qualifies. -/
def nodeHasAlt (alt : Option String) (dictAlt : Option (Option String)) : Bool :=
  altOk alt ||
    (match dictAlt with
     | some entry => altOk entry
     | none => false)

mutual
/-- `traverse`: count `(figuresFound, figuresMissingAlt)` over a node and
its descendants (a `Figure` node's children are still traversed). -/
def nodeFigs : StructNode → Nat × Nat
  | .mk role alt dictAlt children =>
    let below := listFigs children
    if role = "Figure" then
      (below.1 + 1, below.2 + (if nodeHasAlt alt dictAlt then 0 else 1))
    else below

/-- Figure counts summed over a list of sibling nodes. -/
def listFigs : List StructNode → Nat × Nat
  | [] => (0, 0)
  | n :: ns =>
    let a := nodeFigs n
    let b := listFigs ns
    (a.1 + b.1, a.2 + b.2)
end

/-- A PDF that `getDocument` opened, seen at the pdfjs boundary.
`xmpLanguage`: the `dc:language` XMP value when the metadata object exists
and `has('dc:language')` holds; `outlineCount`: `none` when `getOutline()`
returns null, otherwise the number of outline items; `pages`: per page the
`item.str` values of `getTextContent()` (so `numPages = pages.length`);
`structTree`: `none` when `getStructTree()` returned null or threw (the
source catches the exception and leaves it null). -/
structure PdfInput where
  fileName : String
  infoTitle : Option String
  infoAuthor : Option String
  infoCreationDate : Option String
  xmpLanguage : Option String
  outlineCount : Option Nat
  pages : List (List String)
  structTree : Option StructNode

/-- The PDF `meta-title` pass record. -/
def pvTitlePass (t : String) : Violation :=
  { id := "meta-title", wcagCriterion := "2.4.2"
    description := "Tytuł pliku PDF jest obecny"
    help := "Dobra robota!"
    impact := Impact.moderate, status := Status.pass
    details := some ("Tytuł: \"" ++ t ++ "\"") }

/-- The PDF `meta-title` fail record. -/
def pvTitleFail : Violation :=
  { id := "meta-title", wcagCriterion := "2.4.2"
    description := "Brak znaczącego tytułu PDF"
    help := "Ustaw Tytuł Dokumentu w narzędziu autorskim (np. InDesign, Word, Acrobat)."
    impact := Impact.serious, status := Status.fail }

/-- The PDF `meta-lang` pass record. -/
def pvLangPass (l : String) : Violation :=
  { id := "meta-lang", wcagCriterion := "3.1.1"
    description := "Język określony"
    help := "Świetnie."
    impact := Impact.moderate, status := Status.pass
    details := some ("Język: " ++ l) }

/-- The PDF `meta-lang` warning record. -/
def pvLangWarn : Violation :=
  { id := "meta-lang", wcagCriterion := "3.1.1"
    description := "Nie znaleziono języka w metadanych"
    help := "Upewnij się, że język dokumentu jest ustawiony we Właściwościach > Zaawansowane."
    impact := Impact.moderate, status := Status.warning }

/-- The optional `nav-bookmarks` pass record. -/
def pvBookmarks : Violation :=
  { id := "nav-bookmarks", wcagCriterion := "2.4.5"
    description := "Wykryto zakładki / spis treści"
    help := "Dobre dla nawigacji."
    impact := Impact.minor, status := Status.pass }

/-- The `ocr-text` warning record (very little extracted text). -/
def pvOcrWarn : Violation :=
  { id := "ocr-text", wcagCriterion := "1.4.5"
    description := "Wykryto bardzo mało tekstu. Skan PDF?"
    help := "Jeśli to zeskanowany dokument, upewnij się, że wykonałeś OCR (Optyczne Rozpoznawanie Znaków)."
    impact := Impact.critical, status := Status.warning }

/-- The `ocr-text` pass record. -/
def pvOcrPass : Violation :=
  { id := "ocr-text", wcagCriterion := "1.4.5"
    description := "Wykryto treść tekstową"
    help := "Dobrze, dokument wydaje się mieć prawdziwy tekst."
    impact := Impact.critical, status := Status.pass }

/-- The `structure-tags` pass record. -/
def pvTagsPass : Violation :=
  { id := "structure-tags", wcagCriterion := "1.3.1"
    description := "Wykryto tagi strukturalne (PDF Tagged)"
    help := "Dokument posiada strukturę znaczników."
    impact := Impact.serious, status := Status.pass }

/-- The `structure-tags` fail record (untagged PDF). -/
def pvTagsFail : Violation :=
  { id := "structure-tags", wcagCriterion := "1.3.1"
    description := "Brak struktury tagów (Untagged PDF)"
    help := "Dokument musi być otagowany (Tagged PDF), aby być dostępny."
    impact := Impact.critical, status := Status.fail }

/-- The `pdf-images-alt` pass record (all figures carry alt text). -/
def pvAltAllPass : Violation :=
  { id := "pdf-images-alt", wcagCriterion := "1.1.1"
    description := "Wszystkie figury (obrazy) w strukturze mają tekst alternatywny"
    help := "Świetnie."
    impact := Impact.critical, status := Status.pass }

/-- The `pdf-images-alt` fail record with the missing count. -/
def pvAltMissing (n : Nat) : Violation :=
  { id := "pdf-images-alt", wcagCriterion := "1.1.1"
    description := "Znaleziono " ++ toString n ++ " figur bez tekstu alternatywnego (Alt)"
    help := "Użyj panelu Dostępność w Acrobat, aby dodać opisy."
    impact := Impact.critical, status := Status.fail }

/-- The `pdf-images-alt` warning record (tree present, no tagged figures). -/
def pvAltNoFigures : Violation :=
  { id := "pdf-images-alt", wcagCriterion := "1.1.1"
    description := "Nie znaleziono oznaczonych figur (obrazów) w strukturze"
    help := "Jeśli dokument zawiera obrazy, upewnij się, że są one otagowane jako \"Figure\"."
    impact := Impact.moderate, status := Status.warning }

/-- The `pdf-images-alt` fail record emitted when the PDF is untagged. -/
def pvAltUnverifiable : Violation :=
  { id := "pdf-images-alt", wcagCriterion := "1.1.1"
    description := "Nie można sprawdzić tekstów alternatywnych (brak tagów)"
    help := "Włącz tagowanie w dokumencie źródłowym."
    impact := Impact.critical, status := Status.fail }

/-- The OCR-heuristic text total: over the first `min(numPages, 5)` pages,
sum the length of the concatenated text items of each page
(`strings.join('').length`). -/
def pdfTotalTextLength (pages : List (List String)) : Nat :=
  let pagesToCheck := min pages.length 5
  ((pages.take pagesToCheck).map (fun pg => (String.join pg).length)).sum

/-- The PDF title predicate:
`title && title.trim().length > 0 && title !== 'Untitled'`. -/
def pdfGoodTitle : Option String → Bool
  | some t => t != "" && !isBlank t && t != "Untitled"
  | none => false

/-- `checkPdf` (src/unnamed/part_001).  Total on `PdfInput`: the only
rejection in the source (`getDocument` on a corrupt container) happens
before any of the modelled state exists. -/
def checkPdf (i : PdfInput) : Report :=
  let titleV :=
    match i.infoTitle with
    | some t => if t != "" && !isBlank t && t != "Untitled" then pvTitlePass t else pvTitleFail
    | none => pvTitleFail
  let langV :=
    match i.xmpLanguage with
    | some l => if l != "" then pvLangPass l else pvLangWarn
    | none => pvLangWarn
  let navVs :=
    match i.outlineCount with
    | some n => if n > 0 then [pvBookmarks] else []
    | none => []
  let ocrV := if pdfTotalTextLength i.pages < 50 then pvOcrWarn else pvOcrPass
  let structVs :=
    match i.structTree with
    | some t =>
      let figs := nodeFigs t
      [pvTagsPass,
        if figs.1 > 0 then
          (if figs.2 = 0 then pvAltAllPass else pvAltMissing figs.2)
        else pvAltNoFigures]
    | none => [pvTagsFail, pvAltUnverifiable]
  mkReport i.fileName FileType.pdf ([titleV, langV] ++ navVs ++ [ocrV] ++ structVs)
    { title := i.infoTitle, author := i.infoAuthor
      pageCount := some i.pages.length, createdAt := i.infoCreationDate }

/-! ## Heading-order validation, modelled from the spec

The spec (§4.1 step 3) describes a heading-hierarchy validation and a
second "heading order" record.  No variant of `checkDocx` under src/
contains this code (the src/ variants only emit the heading-presence
record); the definitions below are therefore modelled from the spec's
words. -/

/-- Modelled from the spec: the heading-hierarchy scan missing from the
src/ variants of docxChecker.ts.  Walking the observed heading levels with
`lastLevel` starting at 0 (no prior heading), a transition is flagged
exactly when a previous heading exists (`lastLevel > 0`) and the new level
strictly exceeds `lastLevel + 1`; the flagged pairs `(lastLevel, newLevel)`
are collected in order.  `lastLevel` tracks the deepest level reached so
far: the spec declares both `1→2→2→1→3` entirely valid and `1→3` invalid,
which is consistent with its `newLevel > lastLevel + 1` rule only when
`lastLevel` is the running maximum (under a previous-level reading the
final `1→3` step of the first example would be flagged). -/
def headingOrderFlags (lastLevel : Nat) : List Nat → List (Nat × Nat)
  | [] => []
  | lv :: rest =>
    (if lastLevel > 0 && lv > lastLevel + 1 then [(lastLevel, lv)] else []) ++
      headingOrderFlags (max lastLevel lv) rest

/-- Modelled from the spec: the hierarchy violations of a full observed
heading-level sequence, starting from `lastLevel = 0`. -/
def hierarchyViolations (levels : List Nat) : List (Nat × Nat) :=
  headingOrderFlags 0 levels

/-- Modelled from the spec: the human-readable description of one flagged
transition (exact wording unspecified by the spec). -/
def describeFlag (p : Nat × Nat) : String :=
  "Heading level " ++ toString p.2 ++ " follows level " ++ toString p.1

/-- Modelled from the spec: the joined details text of the heading-order
warning — up to 5 violation descriptions, with an ellipsis marker appended
when more exist. -/
def headingOrderDetails (descs : List String) : String :=
  String.intercalate "; " (descs.take 5) ++ (if 5 < descs.length then "…" else "")

/-- Modelled from the spec: the `heading-order` pass record (zero
hierarchy violations). -/
def vHeadingOrderPass : Violation :=
  { id := "heading-order", wcagCriterion := "1.3.1"
    description := "Heading levels are used in a consistent order"
    help := "Keep heading levels consistent."
    impact := Impact.moderate, status := Status.pass }

/-- Modelled from the spec: the `heading-order` warning record carrying the
joined violation descriptions. -/
def vHeadingOrderWarn (descs : List String) : Violation :=
  { id := "heading-order", wcagCriterion := "1.3.1"
    description := "Heading levels are skipped"
    help := "Do not skip heading levels."
    impact := Impact.moderate, status := Status.warning
    details := some (headingOrderDetails descs) }

/-- Modelled from the spec: the heading records of the spec's DocxAnalyzer —
the presence record, followed (only when headings were found) by the
heading-order record: `pass` with zero hierarchy violations, else
`warning`. -/
def specHeadingRecords (levels : List Nat) : List Violation :=
  if levels = [] then [vHeadingsFail]
  else
    [vHeadingsPass,
      if hierarchyViolations levels = [] then vHeadingOrderPass
      else vHeadingOrderWarn ((hierarchyViolations levels).map describeFlag)]

/-! ## Concrete sample inputs used by witnesses and counterexamples -/

/-- A DOCX with no parts at all (core properties part missing). -/
def docxNoCore : DocxInput :=
  { fileName := "n.docx", corePart := none, stylesPart := none, docPart := none }

/-- A DOCX whose core properties parsed and carry a real title. -/
def docxTitled : DocxInput :=
  { fileName := "t.docx"
    corePart := some (some ⟨"Quarterly Report", "A. Author", "2024-01-01"⟩)
    stylesPart := none, docPart := none }

/-- A DOCX whose `docProps/core.xml` entry exists but is malformed XML, so
`parseStringPromise` rejects. -/
def malformedCoreDocx : DocxInput :=
  { fileName := "broken.docx", corePart := some none
    stylesPart := none, docPart := none }

/-- A PDF with no metadata, no outline, no pages, no structure tree. -/
def pdfBare : PdfInput :=
  { fileName := "b.pdf", infoTitle := none, infoAuthor := none
    infoCreationDate := none, xmpLanguage := none, outlineCount := none
    pages := [], structTree := none }

/-! ## Statement predicate for the report/score invariants -/

/-- The report/score contract asserted by the spec: `totalChecks` is the
number of violation records, `passedChecks` the number of `pass` records,
the score is 100 on an empty record list and the half-up rounding of
`100 * passedChecks / totalChecks` otherwise, and it never exceeds 100. -/
def ReportScoreOk (r : Report) : Prop :=
  r.totalChecks = r.violations.length ∧
  r.passedChecks = (r.violations.filter (fun v => v.status == Status.pass)).length ∧
  (r.totalChecks = 0 → r.complianceScore = 100) ∧
  (r.totalChecks ≠ 0 →
    (r.complianceScore : ℤ) = round ((100 * (r.passedChecks : ℚ)) / (r.totalChecks : ℚ))) ∧
  r.complianceScore ≤ 100

/-! ## Theorems -/

/-- The natural-division score formula is exactly half-up rounding of
`100 * p / t`. -/
theorem scoreOf_eq_round (p t : Nat) (ht : t ≠ 0) :
    (scoreOf p t : ℤ) = round ((100 * (p : ℚ)) / (t : ℚ)) := by
  have ht' : (t : ℚ) ≠ 0 := Nat.cast_ne_zero.mpr ht
  have h1 : (100 * (p : ℚ)) / (t : ℚ) + 1 / 2 =
      ((200 * p + t : ℕ) : ℚ) / ((2 * t : ℕ) : ℚ) := by
    push_cast
    field_simp
    ring
  have h2 : (0 : ℚ) ≤ ((200 * p + t : ℕ) : ℚ) / ((2 * t : ℕ) : ℚ) := by
    positivity
  rw [round_eq, h1, ← Int.natCast_floor_eq_floor h2, Nat.floor_div_eq_div]
  simp [scoreOf, ht]

/-- The score never exceeds 100 when there are at least as many checks as
passes. -/
theorem scoreOf_le_100 (p t : Nat) (hpt : p ≤ t) : scoreOf p t ≤ 100 := by
  unfold scoreOf
  split
  · exact le_refl 100
  · rename_i ht
    have h2t : 0 < 2 * t := by omega
    have hlt : (200 * p + t) / (2 * t) < 101 := by
      rw [Nat.div_lt_iff_lt_mul h2t]
      omega
    omega

/-- Every report assembled by the shared final-score block satisfies the
score contract. -/
theorem mkReport_scoreOk (name : String) (ft : FileType) (vs : List Violation)
    (md : Metadata) : ReportScoreOk (mkReport name ft vs md) := by
  refine ⟨rfl, rfl, ?_, ?_, ?_⟩
  · intro h
    simp only [mkReport] at h ⊢
    simp [scoreOf, h]
  · intro h
    simp only [mkReport] at h ⊢
    exact scoreOf_eq_round _ _ h
  · simp only [mkReport]
    exact scoreOf_le_100 _ _ (List.length_filter_le _ _)

/-- C1: for every Report produced by `checkDocx` or `checkPdf`,
`totalChecks` is the length of the violations list, `passedChecks` the
number of `pass` records in it, `complianceScore` is 100 when `totalChecks`
is 0 and the half-up rounding of `100 * passedChecks / totalChecks`
otherwise, and the score lies in `[0, 100]`. -/
theorem checkers_report_score_invariants :
    (∀ (i : DocxInput) (r : Report), checkDocx i = Except.ok r → ReportScoreOk r) ∧
    (∀ j : PdfInput, ReportScoreOk (checkPdf j)) := by
  constructor
  · intro i r h
    unfold checkDocx at h
    cases hc : i.corePart with
    | none =>
      rw [hc] at h
      cases h
      exact mkReport_scoreOk _ _ _ _
    | some o =>
      cases o with
      | none => rw [hc] at h; cases h
      | some core =>
        rw [hc] at h
        cases h
        exact mkReport_scoreOk _ _ _ _
  · intro j
    exact mkReport_scoreOk _ _ _ _

/-- Witness for C1 at a concrete input: the bare DOCX (missing core part)
produces an `ok` report satisfying the contract. -/
theorem checkers_report_score_invariants_witness :
    checkDocx docxNoCore = Except.ok (docxRest docxNoCore vTitleUnreadable ⟨"", "", ""⟩) ∧
    ReportScoreOk (docxRest docxNoCore vTitleUnreadable ⟨"", "", ""⟩) :=
  ⟨rfl, checkers_report_score_invariants.1 docxNoCore _ rfl⟩

/-- Whatever the branch outcomes, `docxRest` emits its four records with
fixed ids in a fixed order (the first carrying the id of the title record
passed in). -/
theorem docxRest_ids (i : DocxInput) (v1 : Violation) (c : CoreXml) :
    (docxRest i v1 c).violations.map (fun v => v.id) =
      [v1.id, "meta-lang", "structure-headings", "images-alt"] := by
  simp only [docxRest, mkReport]
  split_ifs <;> rfl

/-- C10: on every input on which `checkDocx` returns a Report, the
violations list holds exactly 4 records with ids `meta-title`, `meta-lang`,
`structure-headings`, `images-alt` in that order, so `totalChecks` is 4. -/
theorem checkDocx_four_fixed_checks :
    ∀ (i : DocxInput) (r : Report), checkDocx i = Except.ok r →
      r.violations.map (fun v => v.id) =
        ["meta-title", "meta-lang", "structure-headings", "images-alt"] ∧
      r.totalChecks = 4 := by
  intro i r h
  unfold checkDocx at h
  cases hc : i.corePart with
  | none =>
    rw [hc] at h
    cases h
    exact ⟨by rw [docxRest_ids]; rfl, rfl⟩
  | some o =>
    cases o with
    | none => rw [hc] at h; cases h
    | some core =>
      rw [hc] at h
      cases h
      refine ⟨?_, rfl⟩
      rw [docxRest_ids]
      split <;> rfl

/-- Witness for C10 at a concrete DOCX with a parsed, titled core part. -/
theorem checkDocx_four_fixed_checks_witness :
    (docxRest docxTitled (vTitlePass "Quarterly Report")
        ⟨"Quarterly Report", "A. Author", "2024-01-01"⟩).violations.map (fun v => v.id) =
      ["meta-title", "meta-lang", "structure-headings", "images-alt"] ∧
    (docxRest docxTitled (vTitlePass "Quarterly Report")
        ⟨"Quarterly Report", "A. Author", "2024-01-01"⟩).totalChecks = 4 :=
  checkDocx_four_fixed_checks docxTitled _ (by rfl)

/-- C4 (failing input): a DOCX whose `docProps/core.xml` entry exists but
holds malformed XML makes `checkDocx` reject instead of degrading to a
`fail` finding — the core-properties parse is the one extraction in either
analyzer without a local try/catch. -/
theorem checkDocx_malformed_core_rejects :
    checkDocx malformedCoreDocx =
      Except.error "checkDocx: parseStringPromise rejected on docProps/core.xml" := rfl

/-- C9: each analyzer is a pure function of its input — byte-identical
inputs (equal collaborator views) produce identical Reports. -/
theorem checkers_deterministic :
    (∀ d₁ d₂ : DocxInput, d₁ = d₂ → checkDocx d₁ = checkDocx d₂) ∧
    (∀ p₁ p₂ : PdfInput, p₁ = p₂ → checkPdf p₁ = checkPdf p₂) :=
  ⟨fun _ _ h => by rw [h], fun _ _ h => by rw [h]⟩

/-- Witness for C9 at concrete inputs. -/
theorem checkers_deterministic_witness :
    docxTitled = docxTitled ∧ checkDocx docxTitled = checkDocx docxTitled :=
  ⟨rfl, checkers_deterministic.1 docxTitled docxTitled rfl⟩

/-- C5: whenever the structure tree is absent (or its fetch failed, which
the source collapses into absence), `checkPdf` emits exactly one
`structure-tags` record and exactly one `pdf-images-alt` record, both the
fixed unconditional `fail` records for criteria 1.3.1 and 1.1.1 — no
figure-level alternative-text result can appear. -/
theorem checkPdf_untagged_two_fails :
    ∀ i : PdfInput, i.structTree = none →
      (checkPdf i).violations.filter (fun v => v.id == "structure-tags") = [pvTagsFail] ∧
      (checkPdf i).violations.filter (fun v => v.id == "pdf-images-alt") = [pvAltUnverifiable] ∧
      pvTagsFail.status = Status.fail ∧ pvTagsFail.wcagCriterion = "1.3.1" ∧
      pvAltUnverifiable.status = Status.fail ∧ pvAltUnverifiable.wcagCriterion = "1.1.1" := by
  intro i hst
  obtain ⟨fn, it, ia, icd, xl, oc, pg, st⟩ := i
  simp only at hst
  subst hst
  refine ⟨?_, ?_, rfl, rfl, rfl, rfl⟩ <;>
    · simp only [checkPdf, mkReport]
      repeat' split
      all_goals rfl

/-- Witness for C5 at the bare PDF. -/
theorem checkPdf_untagged_two_fails_witness :
    pdfBare.structTree = none ∧
    ((checkPdf pdfBare).violations.filter (fun v => v.id == "structure-tags") = [pvTagsFail] ∧
      (checkPdf pdfBare).violations.filter (fun v => v.id == "pdf-images-alt") = [pvAltUnverifiable] ∧
      pvTagsFail.status = Status.fail ∧ pvTagsFail.wcagCriterion = "1.3.1" ∧
      pvAltUnverifiable.status = Status.fail ∧ pvAltUnverifiable.wcagCriterion = "1.1.1") :=
  ⟨rfl, checkPdf_untagged_two_fails pdfBare rfl⟩

/-- C7: the OCR-heuristic record of every `checkPdf` run is the unique
`ocr-text` record; it is the `warning` record exactly when the summed text
length of the first `min(numPages, 5)` pages is below 50 characters, and
the `pass` record otherwise. -/
theorem checkPdf_ocr_threshold (i : PdfInput) :
    (checkPdf i).violations.filter (fun v => v.id == "ocr-text") =
      [if ((i.pages.take (min i.pages.length 5)).map
            (fun pg => (String.join pg).length)).sum < 50
        then pvOcrWarn else pvOcrPass] ∧
    pvOcrWarn.status = Status.warning ∧ pvOcrWarn.wcagCriterion = "1.4.5" ∧
    pvOcrPass.status = Status.pass ∧ pvOcrPass.wcagCriterion = "1.4.5" := by
  obtain ⟨fn, it, ia, icd, xl, oc, pg, st⟩ := i
  refine ⟨?_, rfl, rfl, rfl, rfl⟩
  simp only [checkPdf, mkReport, pdfTotalTextLength]
  repeat' split
  all_goals rfl

/-- C8: the first record of every `checkPdf` report is the `meta-title`
check (criterion 2.4.2); it is `pass` exactly when the metadata title
exists, has a non-whitespace character, and differs from the placeholder
`"Untitled"`; in every other case it is `fail`. -/
theorem checkPdf_title_rule (i : PdfInput) :
    ∃ v rest, (checkPdf i).violations = v :: rest ∧
      v.id = "meta-title" ∧ v.wcagCriterion = "2.4.2" ∧
      (v.status = Status.pass ↔
        ∃ t, i.infoTitle = some t ∧ t ≠ "Untitled" ∧
          ∃ c ∈ t.data, ¬c.isWhitespace) ∧
      (v.status ≠ Status.pass → v.status = Status.fail) := by
  obtain ⟨fn, it, ia, icd, xl, oc, pg, st⟩ := i
  simp only [checkPdf, mkReport]
  cases it with
  | none =>
    refine ⟨pvTitleFail, _, rfl, rfl, rfl, ?_, ?_⟩
    · simp [pvTitleFail]
    · intro; rfl
  | some t =>
    cases hb : (t != "" && !isBlank t && t != "Untitled") with
    | true =>
      simp only [hb, if_true]
      refine ⟨pvTitlePass t, _, rfl, rfl, rfl, ?_, ?_⟩
      · simp only [Bool.and_eq_true, bne_iff_ne, Bool.not_eq_true'] at hb
        obtain ⟨⟨-, hblank⟩, hu⟩ := hb
        simp only [pvTitlePass, true_iff]
        refine ⟨t, rfl, hu, ?_⟩
        simpa [isBlank, List.all_eq_true] using hblank
      · intro h; exact absurd rfl h
    | false =>
      simp only [hb, if_false]
      refine ⟨pvTitleFail, _, rfl, rfl, rfl, ?_, ?_⟩
      · simp only [pvTitleFail]
        constructor
        · intro h; exact absurd h (by decide)
        · rintro ⟨t', ht', hu, c, hc, hw⟩
          obtain rfl : t = t' := Option.some.inj ht'
          simp only [Bool.and_eq_false_iff, bne_eq_false_iff_eq, Bool.not_eq_false'] at hb
          rcases hb with (rfl | hbl) | hunt
          · exact absurd hc (List.not_mem_nil c)
          · have := List.all_eq_true.mp hbl c hc
            exact (hw (by simpa using this)).elim
          · exact (hu (by simpa using hunt)).elim
      · intro; rfl

/-- C6 counterexample: the two possible `meta-title` outcomes carry
different impacts — `moderate` on the pass branch (titled document) and
`serious` on the fail branch (unreadable core part) — so the impact of a
record is not fixed by the check id alone. -/
theorem impact_not_fixed_counterexample :
    (checkDocx docxTitled).map
        (fun r => r.violations.map (fun v => (v.id, v.impact, v.status))) =
      Except.ok [("meta-title", Impact.moderate, Status.pass),
        ("meta-lang", Impact.moderate, Status.warning),
        ("structure-headings", Impact.serious, Status.fail),
        ("images-alt", Impact.minor, Status.pass)] ∧
    (checkDocx docxNoCore).map
        (fun r => r.violations.map (fun v => (v.id, v.impact, v.status))) =
      Except.ok [("meta-title", Impact.serious, Status.fail),
        ("meta-lang", Impact.moderate, Status.warning),
        ("structure-headings", Impact.serious, Status.fail),
        ("images-alt", Impact.minor, Status.pass)] ∧
    Impact.moderate ≠ Impact.serious :=
  ⟨rfl, rfl, by decide⟩

set_option maxHeartbeats 1600000 in
/-- C6 amended: the impact is not a function of the check id alone; for the
`meta-title` check of both analyzers it tracks the outcome — `moderate` on
a `pass` record and `serious` otherwise (the other outcome-dependent
impacts are `images-alt`, `structure-tags` and `pdf-images-alt`). -/
theorem meta_title_impact_tracks_outcome :
    (∀ (i : DocxInput) (r : Report), checkDocx i = Except.ok r →
      ∀ v ∈ r.violations, v.id = "meta-title" →
        v.impact = (if v.status = Status.pass then Impact.moderate else Impact.serious)) ∧
    (∀ j : PdfInput, ∀ v ∈ (checkPdf j).violations, v.id = "meta-title" →
      v.impact = (if v.status = Status.pass then Impact.moderate else Impact.serious)) := by
  constructor
  · intro i r h v hv hid
    unfold checkDocx at h
    cases hc : i.corePart with
    | none =>
      rw [hc] at h
      cases h
      simp only [docxRest, mkReport] at hv
      repeat' split at hv
      all_goals
        simp only [List.mem_cons, List.not_mem_nil, or_false, or_assoc] at hv
      all_goals
        rcases hv with rfl | rfl | rfl | rfl <;>
          simp_all [vTitleFail, vTitleUnreadable, vTitlePass, vLangPass, vLangWarn,
            vHeadingsPass, vHeadingsFail, vImagesAllAlt, vImagesMissing, vImagesNone]
    | some o =>
      cases o with
      | none => rw [hc] at h; cases h
      | some core =>
        rw [hc] at h
        cases h
        simp only [docxRest, mkReport] at hv
        repeat' split at hv
        all_goals
          simp only [List.mem_cons, List.not_mem_nil, or_false, or_assoc] at hv
        all_goals
          rcases hv with rfl | rfl | rfl | rfl <;>
            simp_all [vTitleFail, vTitleUnreadable, vTitlePass, vLangPass, vLangWarn,
              vHeadingsPass, vHeadingsFail, vImagesAllAlt, vImagesMissing, vImagesNone]
  · intro j v hv hid
    obtain ⟨fn, it, ia, icd, xl, oc, pg, st⟩ := j
    simp only [checkPdf, mkReport] at hv
    repeat' split at hv
    all_goals
      simp only [List.mem_append, List.mem_cons, List.not_mem_nil, or_false,
        or_assoc] at hv
    all_goals
      rcases hv with rfl | rfl | rfl | rfl | rfl | rfl <;>
        simp_all [pvTitlePass, pvTitleFail, pvLangPass, pvLangWarn, pvBookmarks,
          pvOcrWarn, pvOcrPass, pvTagsPass, pvTagsFail, pvAltAllPass,
          pvAltMissing, pvAltNoFigures, pvAltUnverifiable]

/-- Witness for the amended C6 at the bare PDF. -/
theorem meta_title_impact_tracks_outcome_witness :
    pvTitleFail ∈ (checkPdf pdfBare).violations ∧ pvTitleFail.id = "meta-title" ∧
    pvTitleFail.impact =
      (if pvTitleFail.status = Status.pass then Impact.moderate else Impact.serious) :=
  ⟨by decide, rfl,
    meta_title_impact_tracks_outcome.2 pdfBare pvTitleFail (by decide) rfl⟩

/-- C3 (modelled from the spec): the hierarchy validation never flags the
first heading whatever its level — the flags of `lv :: rest` are exactly
those computed over `rest` with `lv` as the reached level; from the second
heading on, a transition is flagged exactly when the new level strictly
exceeds `lastLevel + 1`; a step that does not go deeper than one past the
previous heading is never flagged; `1→2→2→1→3` produces no flags and
`1→3` produces exactly one. -/
theorem heading_hierarchy_rule :
    (∀ (lv : Nat) (rest : List Nat),
      hierarchyViolations (lv :: rest) = headingOrderFlags lv rest) ∧
    (∀ (last lv : Nat) (rest : List Nat), 1 ≤ last →
      headingOrderFlags last (lv :: rest) =
        (if last + 1 < lv then [(last, lv)] else []) ++
          headingOrderFlags (max last lv) rest) ∧
    (∀ (last lv : Nat) (rest : List Nat), lv ≤ last + 1 →
      headingOrderFlags last (lv :: rest) = headingOrderFlags (max last lv) rest) ∧
    hierarchyViolations [1, 2, 2, 1, 3] = [] ∧
    hierarchyViolations [1, 3] = [(1, 3)] := by
  refine ⟨?_, ?_, ?_, by decide, by decide⟩
  · intro lv rest
    simp [hierarchyViolations, headingOrderFlags]
  · intro last lv rest h
    have h0 : 0 < last := h
    simp only [headingOrderFlags]
    by_cases hlt : last + 1 < lv
    · simp [h0, hlt]
    · simp [hlt]
  · intro last lv rest h
    have hn : ¬ last + 1 < lv := not_lt.mpr h
    simp [headingOrderFlags, hn]

/-- Witness for C3 at the concrete step `1 → 3`. -/
theorem heading_hierarchy_rule_witness :
    (1 : Nat) ≤ 1 ∧
    headingOrderFlags 1 [3] =
      (if 1 + 1 < 3 then [(1, 3)] else []) ++ headingOrderFlags (max 1 3) [] :=
  ⟨by decide, heading_hierarchy_rule.2.1 1 3 [] (by decide)⟩

/-- C2 (modelled from the spec): whenever at least one heading was found,
the heading records are the presence `pass` record followed by a
`heading-order` record, which is the `pass` record when the observed levels
carry zero hierarchy violations and otherwise the `warning` record whose
details join at most 5 violation descriptions, with an ellipsis marker
appended exactly when more than 5 exist. -/
theorem heading_order_second_record (levels : List Nat) (h : levels ≠ []) :
    ∃ v, specHeadingRecords levels = [vHeadingsPass, v] ∧
      v.id = "heading-order" ∧
      (hierarchyViolations levels = [] →
        v = vHeadingOrderPass ∧ v.status = Status.pass) ∧
      (hierarchyViolations levels ≠ [] →
        v.status = Status.warning ∧
        v.details = some (String.intercalate "; "
            (((hierarchyViolations levels).map describeFlag).take 5) ++
          if 5 < (hierarchyViolations levels).length then "…" else "")) := by
  refine ⟨if hierarchyViolations levels = [] then vHeadingOrderPass
    else vHeadingOrderWarn ((hierarchyViolations levels).map describeFlag),
    ?_, ?_, ?_, ?_⟩
  · simp [specHeadingRecords, h]
  · split <;> rfl
  · intro hz
    rw [if_pos hz]
    exact ⟨rfl, rfl⟩
  · intro hnz
    rw [if_neg hnz]
    refine ⟨rfl, ?_⟩
    simp [vHeadingOrderWarn, headingOrderDetails, List.length_map]

/-- Witness for C2 at the concrete level sequence `[1, 3]`. -/
theorem heading_order_second_record_witness :
    ([1, 3] : List Nat) ≠ [] ∧
    ∃ v, specHeadingRecords [1, 3] = [vHeadingsPass, v] ∧
      v.id = "heading-order" ∧
      (hierarchyViolations [1, 3] = [] →
        v = vHeadingOrderPass ∧ v.status = Status.pass) ∧
      (hierarchyViolations [1, 3] ≠ [] →
        v.status = Status.warning ∧
        v.details = some (String.intercalate "; "
            (((hierarchyViolations [1, 3]).map describeFlag).take 5) ++
          if 5 < (hierarchyViolations [1, 3]).length then "…" else "")) :=
  ⟨by decide, heading_order_second_record [1, 3] (by decide)⟩
